import Mathlib

/-!
# Verification of the quiz session state machine of `src/app.py`

This file is a shallow embedding of the quiz-flow portion of `app.py`
(the Streamlit app `main()`): the session state held in
`st.session_state` (`questions`, `current_question`, `score`, `streak`,
`quiz_started`, `answered`), the transitions performed by the
"Generate Questions", "Submit Answer", "Next Question" and
"Restart Quiz" buttons, and the guards under which the code renders
each of those buttons.  External collaborators (text extraction, the
language-model call, JSON parsing) are modelled abstractly at their
boundary: the result of generating and parsing questions is an input
of type `Except String (List Question)`, an error carrying the raw
response text exactly when `json.loads` raises `JSONDecodeError`.
-/

namespace QuizApp

/-- One generated question record, shaped like the JSON objects the app
expects: a prompt, four labelled choices A-D, the correct label, and an
explanation text.  Labels are modelled as `String` because the Python
code compares them with string equality (`selected_label == correct_label`,
app.py line 180). -/
structure Question where
  question : String
  choiceA : String
  choiceB : String
  choiceC : String
  choiceD : String
  correct : String
  explanationText : String
deriving DecidableEq, Inhabited

/-- The mutable session state of `main()`: the six `st.session_state`
fields initialised at app.py lines 84-95. -/
structure QuizSession where
  questions : List Question
  current_question : Nat
  score : Nat
  streak : Nat
  quiz_started : Bool
  answered : Bool
deriving DecidableEq, Inhabited

/-- The error taxonomy of spec section 7 for refused or failed
transitions.  The code refuses quiz-transition ordering errors by not
rendering the corresponding button; `MalformedGeneration` carries the
raw response text shown by `st.code` (app.py lines 136-138). -/
inductive QuizError where
  | EmptyQuestionSet : QuizError
  | AlreadyAnswered : QuizError
  | NotYetAnswered : QuizError
  | InvalidState : QuizError
  | MalformedGeneration : String → QuizError
deriving DecidableEq

/-- The freshly-initialised session (app.py lines 84-95): empty question
list, index 0, score 0, streak 0, not started, not answered. -/
def initSession : QuizSession :=
  { questions := []
    current_question := 0
    score := 0
    streak := 0
    quiz_started := false
    answered := false }

/-- The state assignments performed when generation parses successfully
(app.py lines 129-134): install the question list, mark the quiz
started, and reset index, score, streak and the answered flag. -/
def load (s : QuizSession) (qs : List Question) : QuizSession :=
  { s with
    questions := qs
    quiz_started := true
    current_question := 0
    score := 0
    streak := 0
    answered := false }

/-- The question being rendered, `questions[q_idx]` (app.py line 155).
The code only reads it under the guard `q_idx < len(questions)`, so the
default value is never consulted along guarded transitions. -/
def currentQuestion (s : QuizSession) : Question :=
  s.questions.getD s.current_question default

/-- The "Submit Answer" handler body (app.py lines 176-191): compare the
selected single-letter label to the current question's correct label by
string equality; on match increment score and streak, on mismatch reset
streak to 0; in both cases set the answered flag. -/
def submitAnswer (s : QuizSession) (selectedLabel : String) : QuizSession :=
  if selectedLabel = (currentQuestion s).correct then
    { s with score := s.score + 1, streak := s.streak + 1, answered := true }
  else
    { s with streak := 0, answered := true }

/-- The "Next Question" handler body (app.py lines 194-196): increment
the current index and clear the answered flag. -/
def advance (s : QuizSession) : QuizSession :=
  { s with current_question := s.current_question + 1, answered := false }

/-- The "Restart Quiz" handler body (app.py line 151): it sets only
`quiz_started = False`; questions, index, score, streak and the
answered flag are left untouched. -/
def restart (s : QuizSession) : QuizSession :=
  { s with quiz_started := false }

/-- The "Generate Questions" handler (app.py lines 124-140) at the
parsing boundary: given the parse result of the generation response
(`Except.error raw` when `json.loads` raises, carrying the raw response
text), either perform the `load` assignments, or report
`MalformedGeneration` with the raw text and leave the session untouched.
No emptiness check is performed on the parsed array. -/
def generateLoadStep (s : QuizSession) (parseResult : Except String (List Question)) :
    QuizSession × Option QuizError :=
  match parseResult with
  | Except.error raw => (s, some (QuizError.MalformedGeneration raw))
  | Except.ok qs => (load s qs, none)

/-- The "Next Question" click as guarded by the rendering logic: the
quiz interface requires `quiz_started` (line 143) and a current index
in range (the completed branch returns at line 153 otherwise), and the
button itself is rendered only when `answered` is true (line 193).
When a guard fails the transition cannot fire and the state is
unchanged; the refusal is labelled with the spec's ordering-error name. -/
def advanceClick (s : QuizSession) : QuizSession × Option QuizError :=
  if s.quiz_started = false then (s, some QuizError.InvalidState)
  else if s.questions.length ≤ s.current_question then (s, some QuizError.InvalidState)
  else if s.answered = true then (advance s, none)
  else (s, some QuizError.NotYetAnswered)

/-- The completion screen (app.py lines 146-149), rendered when the
quiz is started and `q_idx >= len(questions)`: it reports the final
score, the total number of questions, and - under the label
"Best Streak" - the current value of the `streak` counter. -/
structure CompletedReport where
  finalScore : Nat
  total : Nat
  bestStreak : Nat
deriving DecidableEq

/-- What the completed branch displays, `none` when the completed
branch is not reached (app.py lines 143-149). -/
def completedReport (s : QuizSession) : Option CompletedReport :=
  if s.quiz_started = true ∧ s.questions.length ≤ s.current_question then
    some { finalScore := s.score, total := s.questions.length, bestStreak := s.streak }
  else
    none

/-- The quiz interface is showing question `current_question`
(app.py lines 143-155): started, index strictly below the length. -/
def isInProgress (s : QuizSession) : Prop :=
  s.quiz_started = true ∧ s.current_question < s.questions.length

/-- The quiz interface is showing the completion screen
(app.py lines 143-153): started, index at or past the length. -/
def isCompleted (s : QuizSession) : Prop :=
  s.quiz_started = true ∧ s.questions.length ≤ s.current_question

instance (s : QuizSession) : Decidable (isInProgress s) := by
  unfold isInProgress; infer_instance

instance (s : QuizSession) : Decidable (isCompleted s) := by
  unfold isCompleted; infer_instance

/-- Answering the next `n` questions with each one's own correct label,
clicking Next after each: the scripted run of spec section 8's first
testable property. -/
def answerAllCorrect : QuizSession → Nat → QuizSession
  | s, 0 => s
  | s, Nat.succ n =>
      answerAllCorrect (advance (submitAnswer s (currentQuestion s).correct)) n

/-- One UI-driven transition, each guarded exactly as the code guards
the rendering of the corresponding control: Generate requires the quiz
not started (line 105); Submit requires started, index in range, and
not yet answered (lines 143, 146, 176); Next requires started, index in
range, and answered (lines 143, 146, 193); Restart requires the
completion screen (lines 143, 146, 150). -/
inductive Step : QuizSession → QuizSession → Prop where
  | loadStep (s : QuizSession) (qs : List Question) :
      s.quiz_started = false → Step s (load s qs)
  | submitStep (s : QuizSession) (lbl : String) :
      s.quiz_started = true → s.current_question < s.questions.length →
      s.answered = false → Step s (submitAnswer s lbl)
  | advanceStep (s : QuizSession) :
      s.quiz_started = true → s.current_question < s.questions.length →
      s.answered = true → Step s (advance s)
  | restartStep (s : QuizSession) :
      s.quiz_started = true → s.questions.length ≤ s.current_question →
      Step s (restart s)

/-- Session states reachable from the freshly-initialised session by
UI-driven transitions. -/
inductive Reachable : QuizSession → Prop where
  | init : Reachable initSession
  | step {s t : QuizSession} : Reachable s → Step s t → Reachable t

/-- A concrete question whose correct label is B (spec section 8's
single-question scenario). -/
def qB : Question :=
  { question := "case 1"
    choiceA := "a", choiceB := "b", choiceC := "c", choiceD := "d"
    correct := "B"
    explanationText := "because" }

/-- A concrete question whose correct label is A. -/
def qA : Question :=
  { question := "case 2"
    choiceA := "a", choiceB := "b", choiceC := "c", choiceD := "d"
    correct := "A"
    explanationText := "since" }

/-- The session right after loading the single-question set `[qB]`. -/
def sLoaded : QuizSession := load initSession [qB]

/-- A completed one-question session answered correctly: load `[qB]`,
submit B, advance. -/
def sCompleted1 : QuizSession := advance (submitAnswer sLoaded "B")

/-- A completed two-question run whose last answer is wrong: load
`[qA, qB]`, answer A (correct), Next, answer X (wrong), Next. -/
def run2 : QuizSession :=
  advance (submitAnswer (advance (submitAnswer (load initSession [qA, qB]) "A")) "X")

end QuizApp

namespace QuizApp

/-- Submitting the correct label takes the first branch of the handler:
score and streak increment, answered is set. -/
theorem submitAnswer_correct_eq (s : QuizSession) (lbl : String)
    (h : lbl = (currentQuestion s).correct) :
    submitAnswer s lbl =
      { s with score := s.score + 1, streak := s.streak + 1, answered := true } := by
  unfold submitAnswer
  rw [if_pos h]

/-- Submitting a mismatching label takes the second branch of the
handler: streak resets to 0, answered is set, score untouched. -/
theorem submitAnswer_wrong_eq (s : QuizSession) (lbl : String)
    (h : lbl ≠ (currentQuestion s).correct) :
    submitAnswer s lbl = { s with streak := 0, answered := true } := by
  unfold submitAnswer
  rw [if_neg h]

/-- Neither branch of the submit handler moves the current index. -/
theorem submitAnswer_current_question (s : QuizSession) (lbl : String) :
    (submitAnswer s lbl).current_question = s.current_question := by
  unfold submitAnswer
  split <;> rfl

/-- Neither branch of the submit handler touches the question list. -/
theorem submitAnswer_questions (s : QuizSession) (lbl : String) :
    (submitAnswer s lbl).questions = s.questions := by
  unfold submitAnswer
  split <;> rfl

/-- Neither branch of the submit handler touches the started flag. -/
theorem submitAnswer_quiz_started (s : QuizSession) (lbl : String) :
    (submitAnswer s lbl).quiz_started = s.quiz_started := by
  unfold submitAnswer
  split <;> rfl

/-- Both branches of the submit handler set the answered flag. -/
theorem submitAnswer_answered (s : QuizSession) (lbl : String) :
    (submitAnswer s lbl).answered = true := by
  unfold submitAnswer
  split <;> rfl

/-- Running `answerAllCorrect` for exactly the number of remaining
questions: the index lands on the length, score and streak grow by that
number, and the question list and started flag are untouched. -/
theorem answerAllCorrect_run (n : Nat) :
    ∀ s : QuizSession, s.current_question + n = s.questions.length →
      (answerAllCorrect s n).questions = s.questions ∧
      (answerAllCorrect s n).current_question = s.questions.length ∧
      (answerAllCorrect s n).score = s.score + n ∧
      (answerAllCorrect s n).streak = s.streak + n ∧
      (answerAllCorrect s n).quiz_started = s.quiz_started := by
  induction n with
  | zero =>
    intro s h
    exact ⟨rfl, h, rfl, rfl, rfl⟩
  | succ n ih =>
    intro s h
    have hrun : answerAllCorrect s (n + 1) =
        answerAllCorrect
          { s with current_question := s.current_question + 1,
                   score := s.score + 1, streak := s.streak + 1,
                   answered := false } n := by
      show answerAllCorrect (advance (submitAnswer s (currentQuestion s).correct)) n = _
      rw [submitAnswer_correct_eq s (currentQuestion s).correct rfl]
      rfl
    obtain ⟨h1, h2, h3, h4, h5⟩ :=
      ih { s with current_question := s.current_question + 1,
                  score := s.score + 1, streak := s.streak + 1,
                  answered := false } (by simp; omega)
    rw [hrun]
    refine ⟨h1, h2, ?_, ?_, h5⟩
    · rw [h3]
      show s.score + 1 + n = s.score + (n + 1)
      omega
    · rw [h4]
      show s.streak + 1 + n = s.streak + (n + 1)
      omega

end QuizApp

namespace QuizApp

/-- Claim C1, counterexample: in the completed one-question session
`sCompleted1` (score 1, streak 1, question list `[qB]`), clicking
Restart does not yield the freshly-initialised session: the score is
still 1 and the question list is still non-empty, so the claim that
Restart clears all quiz data is false on the code. -/
theorem c1_restart_counterexample :
    isCompleted sCompleted1 ∧
    (restart sCompleted1).score = 1 ∧
    (restart sCompleted1).streak = 1 ∧
    (restart sCompleted1).questions = [qB] ∧
    initSession.score = 0 ∧
    restart sCompleted1 ≠ initSession := by
  decide

/-- Claim C1 as amended: Restart only sets the started flag to false
(returning the session to not-started); the question set, current
index, score, streak and answered flag are left unchanged, and the full
reset of those fields happens only at the next successful Load. -/
theorem c1_restart_only_stops (s : QuizSession) (qs : List Question) :
    (restart s).quiz_started = false ∧
    (restart s).questions = s.questions ∧
    (restart s).current_question = s.current_question ∧
    (restart s).score = s.score ∧
    (restart s).streak = s.streak ∧
    (restart s).answered = s.answered ∧
    load (restart s) qs =
      { questions := qs, current_question := 0, score := 0, streak := 0,
        quiz_started := true, answered := false } :=
  ⟨rfl, rfl, rfl, rfl, rfl, rfl, rfl⟩

/-- Claim C2, counterexample: handing the generation handler a
successfully parsed empty array from the freshly-initialised session
reports no error at all (in particular not `EmptyQuestionSet`) and sets
the started flag, leaving `NotStarted`; the session lands directly on
the completion screen.  The claim that an empty question set is
rejected before the transition is false on the code. -/
theorem c2_empty_load_counterexample :
    (generateLoadStep initSession (Except.ok ([] : List Question))).2 = none ∧
    (generateLoadStep initSession (Except.ok ([] : List Question))).1.quiz_started = true ∧
    isCompleted (generateLoadStep initSession (Except.ok ([] : List Question))).1 := by
  decide

/-- Claim C2 as amended: the code performs no emptiness check, so a
parsed empty array is loaded like any other question set - no error is
reported, the session transitions out of not-started with index 0,
score 0, streak 0, and immediately renders as completed because the
index already equals the (zero) length. -/
theorem c2_empty_load_accepted (s : QuizSession) :
    generateLoadStep s (Except.ok ([] : List Question)) = (load s [], none) ∧
    (load s ([] : List Question)).quiz_started = true ∧
    (load s ([] : List Question)).current_question = 0 ∧
    (load s ([] : List Question)).score = 0 ∧
    (load s ([] : List Question)).streak = 0 ∧
    isCompleted (load s ([] : List Question)) :=
  ⟨rfl, rfl, rfl, rfl, rfl, rfl, Nat.le_refl 0⟩

/-- Claim C3: for an in-progress session that has not been answered,
submitting the current question's correct label (case-sensitive string
match) increments score and streak by exactly 1; submitting any other
label among A-D leaves score unchanged and resets streak to 0; both set
the answered flag. -/
theorem c3_submit_scoring (s : QuizSession) (lbl : String)
    (hstarted : s.quiz_started = true)
    (hlt : s.current_question < s.questions.length)
    (hans : s.answered = false) :
    (lbl = (currentQuestion s).correct →
      (submitAnswer s lbl).score = s.score + 1 ∧
      (submitAnswer s lbl).streak = s.streak + 1 ∧
      (submitAnswer s lbl).answered = true) ∧
    (lbl ∈ ["A", "B", "C", "D"] → lbl ≠ (currentQuestion s).correct →
      (submitAnswer s lbl).streak = 0 ∧
      (submitAnswer s lbl).score = s.score ∧
      (submitAnswer s lbl).answered = true) := by
  constructor
  · intro hmatch
    rw [submitAnswer_correct_eq s lbl hmatch]
    exact ⟨rfl, rfl, rfl⟩
  · intro _ hne
    rw [submitAnswer_wrong_eq s lbl hne]
    exact ⟨rfl, rfl, rfl⟩

/-- Claim C3, witness: in the loaded one-question session (question
`qB`, correct label B, score 0, streak 0), submitting B yields score 1,
streak 1, answered true. -/
theorem c3_submit_scoring_witness :
    (submitAnswer sLoaded "B").score = sLoaded.score + 1 ∧
    (submitAnswer sLoaded "B").streak = sLoaded.streak + 1 ∧
    (submitAnswer sLoaded "B").answered = true := by
  have h := c3_submit_scoring sLoaded "B" rfl (by decide) rfl
  exact h.1 (by decide)

/-- Claim C4: for an in-progress session whose current question has
been answered, clicking Next moves the index from i to i+1 and clears
the answered flag; the session is then in progress at i+1 when
i+1 is still below the length of the question set, and completed
otherwise. -/
theorem c4_advance_transition (s : QuizSession)
    (hstarted : s.quiz_started = true)
    (hlt : s.current_question < s.questions.length)
    (hans : s.answered = true) :
    (advance s).current_question = s.current_question + 1 ∧
    (advance s).answered = false ∧
    (s.current_question + 1 < s.questions.length → isInProgress (advance s)) ∧
    (s.questions.length ≤ s.current_question + 1 → isCompleted (advance s)) := by
  refine ⟨rfl, rfl, ?_, ?_⟩
  · intro h
    exact ⟨hstarted, h⟩
  · intro h
    exact ⟨hstarted, h⟩

/-- Claim C4, witness: in the answered one-question session (index 0 of
a single question), Next moves the index to 1, clears the answered
flag, and the session is completed. -/
theorem c4_advance_transition_witness :
    (advance (submitAnswer sLoaded "B")).current_question = 1 ∧
    (advance (submitAnswer sLoaded "B")).answered = false ∧
    isCompleted (advance (submitAnswer sLoaded "B")) := by
  have h := c4_advance_transition (submitAnswer sLoaded "B")
    (by decide) (by decide) (by decide)
  exact ⟨h.1, h.2.1, h.2.2.2 (by decide)⟩

/-- Claim C5: for an in-progress session whose current question has not
been answered, the Next click is refused - the result is the unchanged
session (index, score and streak included) together with the
`NotYetAnswered` ordering error. -/
theorem c5_advance_requires_answer (s : QuizSession)
    (hstarted : s.quiz_started = true)
    (hlt : s.current_question < s.questions.length)
    (hans : s.answered = false) :
    advanceClick s = (s, some QuizError.NotYetAnswered) := by
  unfold advanceClick
  rw [if_neg (by rw [hstarted]; exact fun h => Bool.noConfusion h)]
  rw [if_neg (Nat.not_le.mpr hlt)]
  rw [if_neg (by rw [hans]; exact fun h => Bool.noConfusion h)]

/-- Claim C5, witness: in the freshly loaded one-question session
(answered still false), the Next click returns the session unchanged
with the `NotYetAnswered` error. -/
theorem c5_advance_requires_answer_witness :
    advanceClick sLoaded = (sLoaded, some QuizError.NotYetAnswered) :=
  c5_advance_requires_answer sLoaded rfl (by decide) rfl

end QuizApp

namespace QuizApp

/-- Claim C6: loading a non-empty question set and then, for each
question in order, submitting its correct label and clicking Next,
ends on the completion screen with score and streak both equal to the
number of questions. -/
theorem c6_all_correct_run (qs : List Question) (hne : qs ≠ []) :
    isCompleted (answerAllCorrect (load initSession qs) qs.length) ∧
    (answerAllCorrect (load initSession qs) qs.length).score = qs.length ∧
    (answerAllCorrect (load initSession qs) qs.length).streak = qs.length := by
  obtain ⟨h1, h2, h3, h4, h5⟩ :=
    answerAllCorrect_run qs.length (load initSession qs) (Nat.zero_add qs.length)
  refine ⟨⟨?_, ?_⟩, ?_, ?_⟩
  · rw [h5]
    rfl
  · rw [h1, h2]
  · rw [h3]
    exact Nat.zero_add qs.length
  · rw [h4]
    exact Nat.zero_add qs.length

/-- Claim C6, witness: loading the single-question set `[qB]` and
running the all-correct script ends completed with score 1 and
streak 1. -/
theorem c6_all_correct_run_witness :
    isCompleted (answerAllCorrect (load initSession [qB]) 1) ∧
    (answerAllCorrect (load initSession [qB]) 1).score = 1 ∧
    (answerAllCorrect (load initSession [qB]) 1).streak = 1 := by
  have h := c6_all_correct_run [qB] (by decide)
  exact h

/-- Claim C7: every session state reachable from the freshly-initialised
session by UI-driven transitions keeps the current index between 0 and
the length of the question set, keeps the score at most the number of
questions answered so far (the index plus one if the current question
is already answered), and keeps the streak at most the score; moreover
every transition that makes a new question current (Generate installing
a question set, or Next moving the index) produces a state whose
answered flag is false. -/
theorem c7_reachable_invariant (s : QuizSession) (hreach : Reachable s) :
    (s.current_question ≤ s.questions.length ∧
     s.score ≤ s.current_question + (if s.answered = true then 1 else 0) ∧
     s.streak ≤ s.score) ∧
    (∀ t : QuizSession, Step s t → t.quiz_started = true →
      t.current_question < t.questions.length →
      (t.current_question ≠ s.current_question ∨ s.quiz_started = false) →
      t.answered = false) := by
  constructor
  · induction hreach with
    | init =>
      exact ⟨Nat.le_refl 0, Nat.zero_le 0, Nat.le_refl 0⟩
    | @step u v hr hstep ih =>
      obtain ⟨ih1, ih2, ih3⟩ := ih
      cases hstep with
      | loadStep qs hns =>
        exact ⟨Nat.zero_le qs.length, Nat.zero_le 0, Nat.le_refl 0⟩
      | submitStep lbl hst hlt hans =>
        rw [hans] at ih2
        simp only [Bool.false_eq_true, if_false, Nat.add_zero] at ih2
        by_cases hl : lbl = (currentQuestion u).correct
        · rw [submitAnswer_correct_eq u lbl hl]
          refine ⟨ih1, ?_, Nat.succ_le_succ ih3⟩
          show u.score + 1 ≤ u.current_question + (if true = true then 1 else 0)
          simp only [if_pos rfl]
          exact Nat.succ_le_succ ih2
        · rw [submitAnswer_wrong_eq u lbl hl]
          refine ⟨ih1, ?_, Nat.zero_le u.score⟩
          show u.score ≤ u.current_question + (if true = true then 1 else 0)
          simp only [if_pos rfl]
          exact Nat.le_succ_of_le ih2
      | advanceStep hst hlt hans =>
        rw [hans] at ih2
        simp only [if_pos rfl] at ih2
        refine ⟨hlt, ?_, ih3⟩
        show u.score ≤ u.current_question + 1 + (if false = true then 1 else 0)
        simp only [Bool.false_eq_true, if_false, Nat.add_zero]
        exact ih2
      | restartStep hst hge =>
        exact ⟨ih1, ih2, ih3⟩
  · intro t hstep ht1 ht2 hnew
    cases hstep with
    | loadStep qs hns =>
      rfl
    | submitStep lbl hst hlt hans =>
      exfalso
      rcases hnew with hne | hns2
      · exact hne (submitAnswer_current_question s lbl)
      · rw [hst] at hns2
        exact Bool.noConfusion hns2
    | advanceStep hst hlt hans =>
      rfl
    | restartStep hst hge =>
      exfalso
      exact Bool.noConfusion ht1

/-- Claim C7, witness: the loaded one-question session is reachable
(initial session, then Generate installing `[qB]`) and satisfies the
invariant bounds. -/
theorem c7_reachable_invariant_witness :
    sLoaded.current_question ≤ sLoaded.questions.length ∧
    sLoaded.score ≤ sLoaded.current_question + (if sLoaded.answered = true then 1 else 0) ∧
    sLoaded.streak ≤ sLoaded.score := by
  have h := c7_reachable_invariant sLoaded
    (Reachable.step Reachable.init (Step.loadStep initSession [qB] rfl))
  exact h.1

/-- Claim C8: when the generation response text fails to parse as a
JSON array, the handler reports `MalformedGeneration` carrying the raw
response text and returns the session exactly as it was - question set,
started flag, index, score and streak all unchanged, with no partial
recovery. -/
theorem c8_malformed_generation_keeps_state (s : QuizSession) (raw : String) :
    generateLoadStep s (Except.error raw) = (s, some (QuizError.MalformedGeneration raw)) ∧
    (generateLoadStep s (Except.error raw)).1.questions = s.questions ∧
    (generateLoadStep s (Except.error raw)).1.quiz_started = s.quiz_started ∧
    (generateLoadStep s (Except.error raw)).1.current_question = s.current_question ∧
    (generateLoadStep s (Except.error raw)).1.score = s.score ∧
    (generateLoadStep s (Except.error raw)).1.streak = s.streak :=
  ⟨rfl, rfl, rfl, rfl, rfl, rfl⟩

/-- Claim C9: the completion screen reports, as "Best Streak", exactly
the current value of the streak counter - the run of consecutive
correct answers ending at the final question - and a wrong answer on
any question followed by Next leaves that counter at 0; so the reported
value is the final run, not the maximum streak attained (the witness
run attains streak 1 mid-quiz and reports 0). -/
theorem c9_best_streak_is_final_streak (s : QuizSession)
    (hst : s.quiz_started = true)
    (hdone : s.questions.length ≤ s.current_question) :
    completedReport s =
      some { finalScore := s.score, total := s.questions.length, bestStreak := s.streak } ∧
    (∀ t : QuizSession, ∀ lbl : String, lbl ≠ (currentQuestion t).correct →
      (advance (submitAnswer t lbl)).streak = 0) := by
  constructor
  · unfold completedReport
    rw [if_pos ⟨hst, hdone⟩]
  · intro t lbl h
    rw [submitAnswer_wrong_eq t lbl h]
    rfl

/-- Claim C9, witness: the two-question run `run2` (first answer
correct, streak reaching 1; last answer wrong) reports final score 1 of
2 and best streak 0. -/
theorem c9_best_streak_is_final_streak_witness :
    completedReport run2 =
      some { finalScore := 1, total := 2, bestStreak := 0 } ∧
    (submitAnswer (load initSession [qA, qB]) "A").streak = 1 := by
  have h := c9_best_streak_is_final_streak run2 (by decide) (by decide)
  exact ⟨h.1, by decide⟩

/-- Claim C10: score never decreases under any transition - Submit
yields either score + 1 or an unchanged score (and never less), Next
and Restart leave the score unchanged, and Generate (Load) resets it
to 0. -/
theorem c10_score_monotone (s : QuizSession) (lbl : String) (qs : List Question) :
    ((submitAnswer s lbl).score = s.score + 1 ∨ (submitAnswer s lbl).score = s.score) ∧
    s.score ≤ (submitAnswer s lbl).score ∧
    (advance s).score = s.score ∧
    (restart s).score = s.score ∧
    (load s qs).score = 0 := by
  refine ⟨?_, ?_, rfl, rfl, rfl⟩
  · unfold submitAnswer
    split
    · exact Or.inl rfl
    · exact Or.inr rfl
  · unfold submitAnswer
    split
    · exact Nat.le_succ s.score
    · exact Nat.le_refl s.score

end QuizApp
